import Mathlib

/-!
Verification development for the ecproc IDE core library.

Shallow embedding of:
* `src/lib/techniques.js` — the technique catalog (`TECHNIQUES`,
  `TECHNIQUE_CATEGORIES`, `createDefaultStep`);
* `src/lib/validation.js` — the validation engine (`validateStep`,
  `validateProcedure`, `summarizeIssues`, `isValid`);
* the unit-conversion and escaping layer of `src/lib/generators.js`
  (modelled from the spec where noted — the implementation file is not in
  the repository snapshot, only its test suite).

JavaScript numbers are modelled by `ℚ`; all numeric literals in the catalog,
the validation thresholds and the test inputs are exactly representable, so
rational comparison agrees with IEEE double comparison on them.  Parameter
values are modelled by `JSValue`, which covers the value shapes that occur
in step parameter maps: numbers, booleans, strings, `null`, and `undefined`
(the result of reading an absent key).  JS numeric coercion (`ToNumber`) is
made explicit in `toNum`: `null ↦ 0`, booleans `↦ 0/1`, `undefined ↦ NaN`
(modelled as `none`); every string value occurring in this catalog is a
non-numeric enumeration token, which `Number(...)` sends to NaN, so strings
are mapped to `none` as well.  Comparisons against NaN are `false`.
Human-readable `message` texts of issues are presentation data and are not
modelled; issues are identified by `level`, `code`, `param` and `stepIndex`
exactly as the rules and tests identify them.
-/

/-- A JavaScript value as it occurs in a step parameter map. -/
inductive JSValue where
  | num (q : ℚ)
  | str (s : String)
  | bool (b : Bool)
  | null
  | jsUndefined
deriving DecidableEq, Repr

namespace JSValue

/-- JS `ToNumber` coercion, with `none` standing for NaN.
Strings in this catalog are non-numeric enumeration tokens (NaN). -/
def toNum : JSValue → Option ℚ
  | num q => some q
  | str _ => none
  | bool b => some (if b then 1 else 0)
  | null => some 0
  | jsUndefined => none

/-- JS `parseFloat` coercion, with `none` standing for NaN.
`parseFloat` of `null`, `undefined` and booleans stringifies first and
yields NaN; strings in this catalog are non-numeric (NaN). -/
def pFloat : JSValue → Option ℚ
  | num q => some q
  | _ => none

/-- JS `v < q` for a numeric literal `q` (false when `v` coerces to NaN). -/
def jsLt (v : JSValue) (q : ℚ) : Bool :=
  match v.toNum with
  | some a => a < q
  | none => false

/-- JS `v > q` for a numeric literal `q` (false when `v` coerces to NaN). -/
def jsGt (v : JSValue) (q : ℚ) : Bool :=
  match v.toNum with
  | some a => a > q
  | none => false

/-- JS `v <= q` for a numeric literal `q` (false when `v` coerces to NaN). -/
def jsLe (v : JSValue) (q : ℚ) : Bool :=
  match v.toNum with
  | some a => a ≤ q
  | none => false

/-- JS `v >= q` for a numeric literal `q` (false when `v` coerces to NaN). -/
def jsGe (v : JSValue) (q : ℚ) : Bool :=
  match v.toNum with
  | some a => a ≥ q
  | none => false

/-- JS `Math.abs(v) > q` (false when `v` coerces to NaN). -/
def jsAbsGt (v : JSValue) (q : ℚ) : Bool :=
  match v.toNum with
  | some a => |a| > q
  | none => false

/-- JS `parseFloat(a) === parseFloat(b)` (false when either side is NaN). -/
def pFloatEq (a b : JSValue) : Bool :=
  match a.pFloat, b.pFloat with
  | some x, some y => x == y
  | _, _ => false

/-- JS `parseFloat(a) <= parseFloat(b)` (false when either side is NaN). -/
def pFloatLe (a b : JSValue) : Bool :=
  match a.pFloat, b.pFloat with
  | some x, some y => x ≤ y
  | _, _ => false

/-- JS strict equality test `v === true`. -/
def isTrue : JSValue → Bool
  | bool b => b
  | _ => false

/-- JS strict inequality test `v !== null`. -/
def isNotNull : JSValue → Bool
  | null => false
  | _ => true

end JSValue

/-- Validation levels, from `LEVEL` in `validation.js`. -/
inductive Level where
  | error
  | warning
  | info
deriving DecidableEq, Repr

/-- A validation issue (message text not modelled, see module header). -/
structure Issue where
  level : Level
  code : String
  param : Option String := none
  stepIndex : Option Int := none
deriving DecidableEq, Repr

/-- A parameter specification from the technique catalog
(`label/type/default/unit/min/max/options`; `help` text carried as data). -/
structure ParamSpec where
  label : String
  type : String
  default : JSValue
  unit : Option String := none
  min : Option ℚ := none
  max : Option ℚ := none
  options : Option (List String) := none
  help : String := ""
deriving DecidableEq, Repr

/-- A technique catalog entry from `techniques.js`. -/
structure Technique where
  id : String
  name : String
  -- source field `abbrev` (Lean keyword)
  abbr : String
  category : String
  description : String
  mlDescription : String
  params : List (String × ParamSpec)
deriving DecidableEq, Repr

/-- A procedure step: technique id plus parameter map plus tag.  The
generated unique `id` string of `createDefaultStep` (timestamp + random
suffix) is an effectful identifier outside the pure core and is not
modelled; no validation or generation behavior reads it. -/
structure Step where
  technique : String
  params : List (String × JSValue)
  tag : String := ""
deriving DecidableEq, Repr

/-- Procedure metadata (`ProcedureMetadata` of the spec).  `validateProcedure`
receives it but never reads it. -/
structure Metadata where
  name : String := ""
  author : String := ""
  description : String := ""
  electrodes : ℚ := 3
  reference : String := ""
  electrolyte : String := ""
  temperature : ℚ := 25
  working_electrode : String := ""
  counter_electrode : String := ""
deriving DecidableEq, Repr

/-- The static technique catalog, transcribed from `TECHNIQUES` in
`techniques.js`, in source order. -/
def TECHNIQUES : List (String × Technique) := [
  ("ocp", {
    id := "ocp", name := "Open Circuit Potential", abbr := "OCP",
    category := "measurement",
    description := "Measures the resting electrode potential when no current flows. Used to establish equilibrium baseline.",
    mlDescription := "Records voltage at zero current over time. Output: potential vs time series.",
    params := [
      ("duration_s", {
        label := "Duration", type := "number",
        default := .num 60, unit := some "s", min := some 1, max := some 86400,
        help := "Measurement duration. Typical: 30-300s for equilibration." }),
      ("stability_mV_min", {
        label := "Stability criterion", type := "number",
        default := .num 1, unit := some "mV/min", min := some (mkRat 1 10), max := some 100,
        help := "Stop early when potential drift drops below this rate." }),
      ("sample_rate_Hz", {
        label := "Sample rate", type := "number",
        default := .num 1, unit := some "Hz", min := some (mkRat 1 10), max := some 1000,
        help := "Data acquisition frequency." })
    ] }),
  ("cv", {
    id := "cv", name := "Cyclic Voltammetry", abbr := "CV",
    category := "voltammetry",
    description := "Sweeps potential in a triangle waveform between two vertices. The workhorse technique for probing redox reactions and surface processes.",
    mlDescription := "Input: potential range, scan rate, cycles. Output: current vs potential curves (voltammograms).",
    params := [
      ("vertex1_V", {
        label := "Lower vertex", type := "number",
        default := .num (mkRat 1 20), unit := some "V vs RHE", min := some (-3), max := some 3,
        help := "Lower potential limit (typically cathodic)." }),
      ("vertex2_V", {
        label := "Upper vertex", type := "number",
        default := .num (mkRat 6 5), unit := some "V vs RHE", min := some (-3), max := some 3,
        help := "Upper potential limit (typically anodic)." }),
      ("scan_rate_mV_s", {
        label := "Scan rate", type := "number",
        default := .num 50, unit := some "mV/s", min := some (mkRat 1 10), max := some 10000,
        help := "Speed of potential sweep. Typical: 10-100 mV/s. Faster = less resolution but quicker." }),
      ("cycles", {
        label := "Cycles", type := "integer",
        default := .num 3, unit := some "", min := some 1, max := some 1000000,
        help := "Number of complete sweeps. Use ≥3 for reproducible steady-state." }),
      ("start_potential_V", {
        label := "Start potential", type := "number",
        default := .null, unit := some "V vs RHE", min := some (-3), max := some 3,
        help := "Initial potential. If null, starts at OCP." }),
      ("ir_compensation", {
        label := "iR compensation", type := "boolean",
        default := .bool false,
        help := "Correct for solution resistance. Requires prior EIS measurement." })
    ] }),
  ("lsv", {
    id := "lsv", name := "Linear Sweep Voltammetry", abbr := "LSV",
    category := "voltammetry",
    description := "One-directional potential sweep. Used for measuring catalytic activity (ORR, OER, HER polarization curves).",
    mlDescription := "Input: start/end potentials, scan rate. Output: current vs potential curve.",
    params := [
      ("start_V", {
        label := "Start potential", type := "number",
        default := .num 1, unit := some "V vs RHE", min := some (-3), max := some 3,
        help := "Initial potential." }),
      ("end_V", {
        label := "End potential", type := "number",
        default := .num (mkRat 1 5), unit := some "V vs RHE", min := some (-3), max := some 3,
        help := "Final potential." }),
      ("scan_rate_mV_s", {
        label := "Scan rate", type := "number",
        default := .num 5, unit := some "mV/s", min := some (mkRat 1 10), max := some 10000,
        help := "Slower rates (1-10 mV/s) give more accurate kinetics but take longer." }),
      ("ir_compensation", {
        label := "iR compensation", type := "boolean",
        default := .bool false,
        help := "Correct for solution resistance." })
    ] }),
  ("dpv", {
    id := "dpv", name := "Differential Pulse Voltammetry", abbr := "DPV",
    category := "voltammetry",
    description := "Applies small voltage pulses superimposed on a linear ramp. Higher sensitivity than CV for detecting trace analytes.",
    mlDescription := "Input: potential range, pulse parameters. Output: differential current vs potential.",
    params := [
      ("start_V", {
        label := "Start potential", type := "number",
        default := .num 0, unit := some "V", min := some (-3), max := some 3,
        help := "Initial potential." }),
      ("end_V", {
        label := "End potential", type := "number",
        default := .num 1, unit := some "V", min := some (-3), max := some 3,
        help := "Final potential." }),
      ("pulse_height_mV", {
        label := "Pulse height", type := "number",
        default := .num 50, unit := some "mV", min := some 1, max := some 250,
        help := "Amplitude of voltage pulse." }),
      ("pulse_width_ms", {
        label := "Pulse width", type := "number",
        default := .num 50, unit := some "ms", min := some 1, max := some 1000,
        help := "Duration of each pulse." }),
      ("step_height_mV", {
        label := "Step height", type := "number",
        default := .num 5, unit := some "mV", min := some (mkRat 1 10), max := some 50,
        help := "Potential increment between pulses." }),
      ("sample_period_ms", {
        label := "Sample period", type := "number",
        default := .num 20, unit := some "ms", min := some 1, max := some 500,
        help := "When to sample current during pulse." })
    ] }),
  ("swv", {
    id := "swv", name := "Square Wave Voltammetry", abbr := "SWV",
    category := "voltammetry",
    description := "Applies square wave pulses on a staircase ramp. Even higher sensitivity and faster than DPV.",
    mlDescription := "Input: potential range, frequency, amplitude. Output: net current vs potential.",
    params := [
      ("start_V", {
        label := "Start potential", type := "number",
        default := .num 0, unit := some "V", min := some (-3), max := some 3,
        help := "Initial potential." }),
      ("end_V", {
        label := "End potential", type := "number",
        default := .num 1, unit := some "V", min := some (-3), max := some 3,
        help := "Final potential." }),
      ("frequency_Hz", {
        label := "Frequency", type := "number",
        default := .num 25, unit := some "Hz", min := some 1, max := some 500,
        help := "Square wave frequency." }),
      ("amplitude_mV", {
        label := "Amplitude", type := "number",
        default := .num 25, unit := some "mV", min := some 1, max := some 250,
        help := "Square wave amplitude." }),
      ("step_height_mV", {
        label := "Step height", type := "number",
        default := .num 5, unit := some "mV", min := some (mkRat 1 10), max := some 50,
        help := "Staircase step size." })
    ] }),
  ("stripping", {
    id := "stripping", name := "Stripping Voltammetry", abbr := "ASV/CSV",
    category := "voltammetry",
    description := "Two-step technique: first deposit analyte at fixed potential, then strip via potential scan. Ultra-sensitive for trace metals.",
    mlDescription := "Input: deposition potential/time, stripping scan params. Output: stripping peak current (analyte concentration).",
    params := [
      ("deposition_V", {
        label := "Deposition potential", type := "number",
        default := .num (mkRat (-4) 5), unit := some "V", min := some (-3), max := some 3,
        help := "Potential to electrodeposit analyte." }),
      ("deposition_time_s", {
        label := "Deposition time", type := "number",
        default := .num 120, unit := some "s", min := some 1, max := some 3600,
        help := "How long to accumulate analyte." }),
      ("equilibration_s", {
        label := "Equilibration", type := "number",
        default := .num 10, unit := some "s", min := some 0, max := some 120,
        help := "Rest time after deposition." }),
      ("strip_start_V", {
        label := "Strip start", type := "number",
        default := .num (mkRat (-4) 5), unit := some "V", min := some (-3), max := some 3,
        help := "Starting potential for stripping scan." }),
      ("strip_end_V", {
        label := "Strip end", type := "number",
        default := .num (mkRat 3 10), unit := some "V", min := some (-3), max := some 3,
        help := "Ending potential for stripping scan." }),
      ("scan_rate_mV_s", {
        label := "Scan rate", type := "number",
        default := .num 50, unit := some "mV/s", min := some 1, max := some 1000,
        help := "Stripping scan rate." })
    ] }),
  ("eis", {
    id := "eis", name := "Electrochemical Impedance Spectroscopy", abbr := "EIS",
    category := "impedance",
    description := "Measures AC response across frequency range. Reveals solution resistance (Ru), charge transfer resistance, and double-layer capacitance.",
    mlDescription := "Input: frequency range, AC amplitude. Output: Nyquist/Bode plots (impedance vs frequency).",
    params := [
      ("f_start_Hz", {
        label := "Start frequency", type := "number",
        default := .num 100000, unit := some "Hz", min := some (mkRat 1 1000000), max := some 10000000,
        help := "High frequency limit. Typical: 100 kHz." }),
      ("f_end_Hz", {
        label := "End frequency", type := "number",
        default := .num (mkRat 1 10), unit := some "Hz", min := some (mkRat 1 1000000), max := some 10000000,
        help := "Low frequency limit. Typical: 0.1-1 Hz. Lower = longer measurement." }),
      ("amplitude_mV", {
        label := "AC amplitude", type := "number",
        default := .num 10, unit := some "mV", min := some 1, max := some 100,
        help := "Perturbation size. Keep ≤10 mV for linear response." }),
      ("dc_potential_V", {
        label := "DC potential", type := "string",
        default := .str "OCP", unit := some "V or OCP",
        help := "Bias potential during measurement. Use OCP for open circuit." }),
      ("points_per_decade", {
        label := "Points/decade", type := "integer",
        default := .num 10, unit := some "", min := some 1, max := some 50,
        help := "Number of frequency points per decade. More = smoother spectra but slower." })
    ] }),
  ("ca", {
    id := "ca", name := "Chronoamperometry", abbr := "CA",
    category := "chronomethod",
    description := "Holds potential constant while measuring current vs time. Used for durability testing and diffusion coefficient measurement.",
    mlDescription := "Input: fixed potential, duration. Output: current vs time curve.",
    params := [
      ("potential_V", {
        label := "Applied potential", type := "number",
        default := .num (mkRat 3 2), unit := some "V vs RHE", min := some (-3), max := some 3,
        help := "Fixed potential to apply." }),
      ("duration_s", {
        label := "Duration", type := "number",
        default := .num 3600, unit := some "s", min := some 1, max := some 604800,
        help := "Measurement time. Can be hours/days for durability testing." }),
      ("sample_rate_Hz", {
        label := "Sample rate", type := "number",
        default := .num 1, unit := some "Hz", min := some (mkRat 1 1000), max := some 1000,
        help := "Data acquisition frequency." })
    ] }),
  ("cp", {
    id := "cp", name := "Chronopotentiometry", abbr := "CP",
    category := "chronomethod",
    description := "Holds current constant while measuring potential vs time. Galvanostatic mode. Used for battery cycling and electrolysis.",
    mlDescription := "Input: fixed current, duration. Output: potential vs time curve.",
    params := [
      ("current_mA", {
        label := "Applied current", type := "number",
        default := .num 10, unit := some "mA", min := some (-1000), max := some 1000,
        help := "Fixed current to apply. Positive = anodic, negative = cathodic." }),
      ("duration_s", {
        label := "Duration", type := "number",
        default := .num 3600, unit := some "s", min := some 1, max := some 604800,
        help := "Measurement time." }),
      ("voltage_limits_V", {
        label := "Voltage limits", type := "string",
        default := .str "-0.5 to 2.0", unit := some "V",
        help := "Safety cutoff potentials (min to max)." })
    ] }),
  ("gcd", {
    id := "gcd", name := "Galvanostatic Charge-Discharge", abbr := "GCD",
    category := "chronomethod",
    description := "Charges and discharges at constant current between voltage limits. Standard for battery/supercapacitor characterization.",
    mlDescription := "Input: current, voltage limits, cycles. Output: charge/discharge curves, capacity.",
    params := [
      ("current_mA", {
        label := "Current", type := "number",
        default := .num 10, unit := some "mA", min := some (mkRat 1 1000), max := some 1000,
        help := "Charge/discharge current." }),
      ("upper_V", {
        label := "Upper voltage", type := "number",
        default := .num 1, unit := some "V", min := some (-3), max := some 5,
        help := "Charged state voltage limit." }),
      ("lower_V", {
        label := "Lower voltage", type := "number",
        default := .num 0, unit := some "V", min := some (-3), max := some 5,
        help := "Discharged state voltage limit." }),
      ("cycles", {
        label := "Cycles", type := "integer",
        default := .num 5, unit := some "", min := some 1, max := some 10000,
        help := "Number of charge-discharge cycles." })
    ] }),
  ("cc", {
    id := "cc", name := "Coulometry / Charge Counting", abbr := "CC",
    category := "chronomethod",
    description := "Integrates current over time to measure total charge passed. Used for determining reaction stoichiometry.",
    mlDescription := "Input: potential or current hold, duration. Output: cumulative charge (Coulombs).",
    params := [
      ("mode", {
        label := "Control mode", type := "select",
        default := .str "potentiostatic",
        options := some ["potentiostatic", "galvanostatic"],
        help := "Fixed potential or fixed current." }),
      ("setpoint", {
        label := "Setpoint", type := "number",
        default := .num 1, unit := some "V or mA", min := some (-10), max := some 10,
        help := "Fixed potential (V) or current (mA) depending on mode." }),
      ("duration_s", {
        label := "Duration", type := "number",
        default := .num 600, unit := some "s", min := some 1, max := some 86400,
        help := "Integration time." }),
      ("cutoff_C", {
        label := "Charge cutoff", type := "number",
        default := .null, unit := some "C", min := some 0, max := some 10000,
        help := "Stop when this charge is reached (optional)." })
    ] }),
  ("purge", {
    id := "purge", name := "Gas Purge", abbr := "Purge",
    category := "auxiliary",
    description := "Saturates electrolyte with specified gas. Required before ORR (O₂), HER (N₂/Ar), or CO₂RR (CO₂) measurements.",
    mlDescription := "Preparation step. No electrochemical output. Ensures defined gas atmosphere.",
    params := [
      ("gas", {
        label := "Gas", type := "select",
        default := .str "N2",
        options := some ["N2", "O2", "Ar", "H2", "CO2", "air"],
        help := "Gas to bubble through electrolyte." }),
      ("duration_min", {
        label := "Duration", type := "number",
        default := .num 20, unit := some "min", min := some 1, max := some 120,
        help := "Time to reach saturation. Typical: 15-30 min for aqueous solutions." }),
      ("flow_rate_mL_min", {
        label := "Flow rate", type := "number",
        default := .num 50, unit := some "mL/min", min := some 1, max := some 500,
        help := "Gas flow rate through frit." })
    ] }) ]

/-- A UI grouping entry from `TECHNIQUE_CATEGORIES`. -/
structure Category where
  label : String
  techniques : List String
deriving DecidableEq, Repr

/-- The category grouping, transcribed from `TECHNIQUE_CATEGORIES`. -/
def TECHNIQUE_CATEGORIES : List (String × Category) := [
  ("measurement", {
        label := "Potential Measurement", techniques := ["ocp"] }),
  ("voltammetry", {
        label := "Voltammetry", techniques := ["cv", "lsv", "dpv", "swv", "stripping"] }),
  ("impedance", {
        label := "Impedance", techniques := ["eis"] }),
  ("chronomethod", {
        label := "Chronomethods", techniques := ["ca", "cp", "gcd", "cc"] }),
  ("auxiliary", {
        label := "Auxiliary", techniques := ["purge"] })
]

/-- JS object property access `TECHNIQUES[id]`. -/
def lookupTechnique (id : String) : Option Technique :=
  TECHNIQUES.lookup id

/-- `createDefaultStep` from `techniques.js`: throws (`Except.error`) for an
unknown id, otherwise builds a step whose params map each declared key to
its declared default (a fresh copy).  The generated unique step id string
is not modelled (see `Step`). -/
def createDefaultStep (techniqueId : String) : Except String Step :=
  match lookupTechnique techniqueId with
  | none => .error ("Unknown technique: " ++ techniqueId)
  | some tech =>
    .ok { technique := techniqueId,
          params := tech.params.map (fun p => (p.1, p.2.default)),
          tag := "" }

/-- Read a parameter from a step (JS property access; absent key ↦ `undefined`). -/
def getParam (s : Step) (k : String) : JSValue :=
  match s.params.lookup k with
  | some v => v
  | none => .jsUndefined

/-- One conditional issue: JS `if (cond) issues.push(issue)`. -/
def iteIssue (cond : Bool) (i : Issue) : List Issue :=
  if cond then [i] else []

/-- The CV block of `validateStep` (rules PV001, PV002, PV003, PV004, DR011
in source order), guarded by `step.technique === 'cv'`. -/
def cvRules (step : Step) : List Issue :=
  if step.technique == "cv" then
    let vertex1_V := getParam step "vertex1_V"
    let vertex2_V := getParam step "vertex2_V"
    let scan_rate_mV_s := getParam step "scan_rate_mV_s"
    let cycles := getParam step "cycles"
    iteIssue (scan_rate_mV_s.jsGt 10000)
      { level := .error, code := "PV001", param := some "scan_rate_mV_s" } ++
    iteIssue (scan_rate_mV_s.jsGt 0 && scan_rate_mV_s.jsLt (mkRat 1 10))
      { level := .error, code := "PV002", param := some "scan_rate_mV_s" } ++
    iteIssue (cycles.jsLt 1)
      { level := .error, code := "PV003", param := some "cycles" } ++
    iteIssue (vertex1_V.isNotNull && vertex2_V.isNotNull &&
              JSValue.pFloatEq vertex1_V vertex2_V)
      { level := .error, code := "PV004", param := some "vertex1_V" } ++
    iteIssue (cycles.jsGe 1 && cycles.jsLt 3)
      { level := .warning, code := "DR011", param := some "cycles" }
  else []

/-- The EIS block of `validateStep` (PV005–PV009, DR005 in source order). -/
def eisRules (step : Step) : List Issue :=
  if step.technique == "eis" then
    let f_start_Hz := getParam step "f_start_Hz"
    let f_end_Hz := getParam step "f_end_Hz"
    let amplitude_mV := getParam step "amplitude_mV"
    iteIssue (f_start_Hz.isNotNull && f_end_Hz.isNotNull &&
              JSValue.pFloatLe f_start_Hz f_end_Hz)
      { level := .error, code := "PV005", param := some "f_start_Hz" } ++
    iteIssue (f_start_Hz.jsGt 10000000)
      { level := .error, code := "PV006", param := some "f_start_Hz" } ++
    iteIssue (f_end_Hz.jsLt (mkRat 1 1000000))
      { level := .error, code := "PV007", param := some "f_end_Hz" } ++
    iteIssue (amplitude_mV.jsLe 0)
      { level := .error, code := "PV008", param := some "amplitude_mV" } ++
    iteIssue (amplitude_mV.jsGt 100)
      { level := .error, code := "PV009", param := some "amplitude_mV" } ++
    iteIssue (amplitude_mV.jsGt 10 && amplitude_mV.jsLe 100)
      { level := .warning, code := "DR005", param := some "amplitude_mV" }
  else []

/-- The OCP block of `validateStep` (PV011, DR004). -/
def ocpRules (step : Step) : List Issue :=
  if step.technique == "ocp" then
    let duration_s := getParam step "duration_s"
    iteIssue (duration_s.jsLe 0)
      { level := .error, code := "PV011", param := some "duration_s" } ++
    iteIssue (duration_s.jsGt 0 && duration_s.jsLt 30)
      { level := .warning, code := "DR004", param := some "duration_s" }
  else []

/-- The CA/CP block of `validateStep` (PV011, PV010 for ca, DR001 for ca,
DR009 for cp, in source order). -/
def cacpRules (step : Step) : List Issue :=
  if step.technique == "ca" || step.technique == "cp" then
    let duration_s := getParam step "duration_s"
    let potential_V := getParam step "potential_V"
    let current_mA := getParam step "current_mA"
    iteIssue (duration_s.jsLe 0)
      { level := .error, code := "PV011", param := some "duration_s" } ++
    iteIssue (step.technique == "ca" && potential_V.jsAbsGt 10)
      { level := .error, code := "PV010", param := some "potential_V" } ++
    iteIssue (step.technique == "ca" && potential_V.jsAbsGt (mkRat 5 2))
      { level := .warning, code := "DR001", param := some "potential_V" } ++
    iteIssue (step.technique == "cp" && current_mA.jsAbsGt 100)
      { level := .warning, code := "DR009", param := some "current_mA" }
  else []

/-- The LSV block of `validateStep` (PV001, PV002, PV010; the PV010 issue
names `start_V` when the start violates the range, else `end_V`). -/
def lsvRules (step : Step) : List Issue :=
  if step.technique == "lsv" then
    let start_V := getParam step "start_V"
    let end_V := getParam step "end_V"
    let scan_rate_mV_s := getParam step "scan_rate_mV_s"
    iteIssue (scan_rate_mV_s.jsGt 10000)
      { level := .error, code := "PV001", param := some "scan_rate_mV_s" } ++
    iteIssue (scan_rate_mV_s.jsGt 0 && scan_rate_mV_s.jsLt (mkRat 1 10))
      { level := .error, code := "PV002", param := some "scan_rate_mV_s" } ++
    iteIssue (start_V.jsAbsGt 10 || end_V.jsAbsGt 10)
      { level := .error, code := "PV010",
        param := some (if start_V.jsAbsGt 10 then "start_V" else "end_V") }
  else []

/-- The purge block of `validateStep` (PV011, DR007). -/
def purgeRules (step : Step) : List Issue :=
  if step.technique == "purge" then
    let duration_min := getParam step "duration_min"
    iteIssue (duration_min.jsLt 1)
      { level := .error, code := "PV011", param := some "duration_min" } ++
    iteIssue (duration_min.jsGe 1 && duration_min.jsLt 10)
      { level := .warning, code := "DR007", param := some "duration_min" }
  else []

/-- One entry of the generic min/max sweep of `validateStep`: look up the
parameter spec, then emit a PV000 error for a violated declared min and a
PV000 error for a violated declared max. -/
def boundIssue (bound : Option ℚ) (violated : ℚ → Bool) (key : String) : List Issue :=
  match bound with
  | some m => iteIssue (violated m) { level := .error, code := "PV000", param := some key }
  | none => []

/-- One entry of the generic sweep, continued: JS
`if (paramDef.min !== undefined && value < paramDef.min) ...` and the
symmetric max check. -/
def checkBounds (tech : Technique) (entry : String × JSValue) : List Issue :=
  match tech.params.lookup entry.1 with
  | none => []
  | some paramDef =>
    boundIssue paramDef.min (fun m => entry.2.jsLt m) entry.1 ++
    boundIssue paramDef.max (fun m => entry.2.jsGt m) entry.1

/-- The generic bounds sweep of `validateStep` over every parameter entry
present on the step, in entry order. -/
def genericSweep (tech : Technique) (step : Step) : List Issue :=
  step.params.flatMap (checkBounds tech)

/-- `validateStep` from `validation.js`: unknown technique short-circuits
with a single PV000 error; otherwise the technique blocks run in source
order, followed by the generic bounds sweep. -/
def validateStep (step : Step) : List Issue :=
  match lookupTechnique step.technique with
  | none => [{ level := .error, code := "PV000" }]
  | some tech =>
    cvRules step ++ eisRules step ++ ocpRules step ++ cacpRules step ++
    lsvRules step ++ purgeRules step ++ genericSweep tech step

/-- JS `Array.prototype.findIndex` (−1 when no element matches). -/
def findIndexJS (p : Step → Bool) (l : List Step) : Int :=
  match l.findIdx? p with
  | some n => (n : Int)
  | none => -1

/-- JS `Array.prototype.slice(0, k)` with JS negative-index semantics. -/
def sliceToJS (l : List Step) (k : Int) : List Step :=
  if k < 0 then l.take ((l.length : Int) + k).toNat
  else l.take k.toNat

/-- Technique ids counting as measurements for DR006. -/
def measurementTechs : List String := ["lsv", "cv", "eis"]

/-- Technique ids counting as conditioning for DR006. -/
def conditioningTechs : List String := ["cv", "purge", "ocp"]

/-- `validateProcedure` from `validation.js` (DR006, DR007, DR008 in source
order).  The metadata argument is received but never read (source parameter
`_metadata`). -/
def validateProcedure (steps : List Step) (_metadata : Metadata) : List Issue :=
  let firstMeasurementIndex :=
    findIndexJS (fun s => measurementTechs.contains s.technique) steps
  let hasConditioningBefore :=
    (sliceToJS steps firstMeasurementIndex).any
      (fun s => conditioningTechs.contains s.technique)
  iteIssue (firstMeasurementIndex > 0 && !hasConditioningBefore)
    { level := .warning, code := "DR006", stepIndex := some firstMeasurementIndex } ++
  (let hasLSV := steps.any (fun s => s.technique == "lsv")
   let hasPurge := steps.any (fun s => s.technique == "purge")
   iteIssue (hasLSV && !hasPurge) { level := .warning, code := "DR007" }) ++
  (let hasIrComp := steps.any (fun s => (getParam s "ir_compensation").isTrue)
   let hasEIS := steps.any (fun s => s.technique == "eis")
   iteIssue (hasIrComp && !hasEIS) { level := .warning, code := "DR008" })

/-- `summarizeIssues` from `validation.js`: partition by level, preserving
relative order. -/
def summarizeIssues (issues : List Issue) :
    List Issue × List Issue × List Issue :=
  (issues.filter (fun i => i.level == .error),
   issues.filter (fun i => i.level == .warning),
   issues.filter (fun i => i.level == .info))

/-- `isValid` from `validation.js`: concatenate every step's issues with
the procedure issues and test for absence of error-level entries. -/
def isValid (steps : List Step) (metadata : Metadata) : Bool :=
  let stepIssues := steps.flatMap validateStep
  let procIssues := validateProcedure steps metadata
  let allIssues := stepIssues ++ procIssues
  !allIssues.any (fun i => i.level == .error)

/-- Suffix test on strings (JS `key.endsWith(suffix)`). -/
def strEndsIn (k suffix : String) : Bool :=
  suffix.data.isSuffixOf k.data

/-- Drop the last `n` characters of a string (JS `slice(0, -n)`). -/
def dropSuffix (k : String) (n : Nat) : String :=
  String.mk (k.data.take (k.data.length - n))

/-- Division by 1000, in kernel-computable form (see `divQ1000_eq`). -/
def divQ1000 (q : ℚ) : ℚ :=
  mkRat q.num (q.den * 1000)

/-- Multiplication by 60, in kernel-computable form (see `mulQ60_eq`). -/
def mulQ60 (q : ℚ) : ℚ :=
  mkRat (q.num * 60) q.den

theorem divQ1000_eq (q : ℚ) : divQ1000 q = q / 1000 := by
  rw [divQ1000, Rat.mkRat_eq_div]
  push_cast
  rw [div_mul_eq_div_div_swap, div_right_comm, Rat.num_div_den]

theorem mulQ60_eq (q : ℚ) : mulQ60 q = q * 60 := by
  rw [mulQ60, Rat.mkRat_eq_div]
  push_cast
  rw [mul_comm, mul_div_assoc, Rat.num_div_den, mul_comm]

/-- Modelled from the spec: the IR generator's per-parameter SI unit
conversion (`generators.js` is not in the repository snapshot; §4.3 of the
spec defines the rules).  A numeric parameter keyed `*_mV_s` is divided by
1000 and re-keyed `*_V_s`; `*_mV` is divided by 1000 and re-keyed `*_V`;
`*_min` is multiplied by 60 and re-keyed `*_s`; `*_mA` is divided by 1000
and re-keyed `*_A`; anything else passes through unchanged.  Conversion
applies to numeric values; non-numeric values pass through unchanged. -/
def convertParamToSI (p : String × JSValue) : String × JSValue :=
  match p.2 with
  | .num q =>
    let k := p.1
    if strEndsIn k "_mV_s" then (dropSuffix k 5 ++ "_V_s", .num (divQ1000 q))
    else if strEndsIn k "_mV" then (dropSuffix k 3 ++ "_V", .num (divQ1000 q))
    else if strEndsIn k "_min" then (dropSuffix k 4 ++ "_s", .num (mulQ60 q))
    else if strEndsIn k "_mA" then (dropSuffix k 3 ++ "_A", .num (divQ1000 q))
    else p
  | _ => p

/-- Modelled from the spec: the parameter map of one step of the IR
generator's output — every parameter converted to SI base units, the
original non-SI keys replaced by their SI counterparts. -/
def stepToIRParams (step : Step) : List (String × JSValue) :=
  step.params.map convertParamToSI

/-- Escape one character for the YAML-like format: backslash, double quote,
and newline/tab/carriage-return to their two-character escape sequences. -/
def escYamlChar (c : Char) : String :=
  if c = '\\' then "\\\\"
  else if c = '"' then "\\\""
  else if c = '\n' then "\\n"
  else if c = '\t' then "\\t"
  else if c = '\r' then "\\r"
  else String.singleton c

/-- Modelled from the spec: `escapeYaml` of `generators.js` (§4.4 of the
spec; the implementation file is not in the repository snapshot).  `none`
stands for a `null`/`undefined` argument and yields the empty string; the
backslash is escaped before the quote and whitespace escapes, which the
character-wise traversal realizes: an escape-introduced backslash is never
re-escaped. -/
def escapeYaml : Option String → String
  | none => ""
  | some s => String.mk (s.data.flatMap (fun c => (escYamlChar c).data))

/-- Escape one character for the Python format: backslash, both quote
characters, and newline/tab/carriage-return. -/
def escPyChar (c : Char) : String :=
  if c = '\\' then "\\\\"
  else if c = '"' then "\\\""
  else if c = '\x27' then "\\\x27"
  else if c = '\n' then "\\n"
  else if c = '\t' then "\\t"
  else if c = '\r' then "\\r"
  else String.singleton c

/-- Modelled from the spec: `escapePython` of `generators.js` (§4.4 of the
spec; the implementation file is not in the repository snapshot).  Same
shape as `escapeYaml` with both quote characters escaped. -/
def escapePython : Option String → String
  | none => ""
  | some s => String.mk (s.data.flatMap (fun c => (escPyChar c).data))

/-! ## Helper predicates and lemmas -/

/-- The issue list contains an issue with the given code. -/
def hasCode (issues : List Issue) (c : String) : Prop :=
  ∃ i ∈ issues, i.code = c

instance (issues : List Issue) (c : String) : Decidable (hasCode issues c) :=
  inferInstanceAs (Decidable (∃ i ∈ issues, i.code = c))

theorem hasCode_append {a b : List Issue} {c : String} :
    hasCode (a ++ b) c ↔ hasCode a c ∨ hasCode b c := by
  simp [hasCode, List.mem_append, or_and_right, exists_or]

theorem hasCode_iteIssue {cond : Bool} {i : Issue} {c : String} :
    hasCode (iteIssue cond i) c ↔ cond = true ∧ i.code = c := by
  unfold iteIssue
  split <;> simp_all [hasCode]

theorem hasCode_nil {c : String} : ¬ hasCode [] c := by
  simp [hasCode]

theorem hasCode_boundIssue {bound : Option ℚ} {v : ℚ → Bool} {k c : String} :
    hasCode (boundIssue bound v k) c →
    c = "PV000" := by
  unfold boundIssue
  split
  · rw [hasCode_iteIssue]
    exact fun h => h.2.symm
  · exact fun h => absurd h hasCode_nil

theorem hasCode_checkBounds {tech : Technique} {e : String × JSValue} {c : String} :
    hasCode (checkBounds tech e) c → c = "PV000" := by
  unfold checkBounds
  split
  · exact fun h => absurd h hasCode_nil
  · rw [hasCode_append]
    rintro (h | h) <;> exact hasCode_boundIssue h

theorem hasCode_genericSweep {tech : Technique} {step : Step} {c : String} :
    hasCode (genericSweep tech step) c → c = "PV000" := by
  unfold genericSweep
  rintro ⟨i, hi, hc⟩
  rw [List.mem_flatMap] at hi
  obtain ⟨e, _, hie⟩ := hi
  exact hasCode_checkBounds ⟨i, hie, hc⟩

/-! ## Claim theorems -/

/-- C3: for every step whose technique id is absent from the catalog,
`validateStep` returns exactly one issue, with code PV000 and level error,
and performs no further checks — no technique-specific rule and no
bounds-sweep issue appears. -/
theorem validateStep_unknownTechnique (step : Step)
    (h : lookupTechnique step.technique = none) :
    validateStep step = [{ level := .error, code := "PV000" }] := by
  simp [validateStep, h]

theorem validateStep_unknownTechnique_witness :
    lookupTechnique "nonexistent" = none ∧
    validateStep { technique := "nonexistent", params := [] } =
      [{ level := .error, code := "PV000" }] :=
  ⟨by decide,
   validateStep_unknownTechnique { technique := "nonexistent", params := [] }
     (by decide)⟩

/-- C4: `isValid steps metadata` is true exactly when the concatenation of
every step's `validateStep` issues with `validateProcedure`'s issues has no
error-level entry; warning/info issues never make it false. -/
theorem isValid_iff_noError (steps : List Step) (metadata : Metadata) :
    isValid steps metadata = true ↔
      ∀ i ∈ steps.flatMap validateStep ++ validateProcedure steps metadata,
        i.level ≠ Level.error := by
  unfold isValid
  simp [List.any_eq_true]
  aesop

/-- C10: `validateProcedure` never reads its metadata argument — any two
metadata objects yield identical issue lists on the same steps. -/
theorem validateProcedure_metadataIndependent (steps : List Step)
    (m1 m2 : Metadata) :
    validateProcedure steps m1 = validateProcedure steps m2 := rfl

/-- C7: the catalog registers exactly 12 techniques in exactly 5 categories
(measurement, voltammetry, impedance, chronomethod, auxiliary); every
technique's category field names one of the five, every technique id occurs
in exactly one category list, and every listed id resolves in the
catalog. -/
theorem catalogInvariants :
    TECHNIQUES.length = 12 ∧
    TECHNIQUE_CATEGORIES.length = 5 ∧
    TECHNIQUE_CATEGORIES.map Prod.fst =
      ["measurement", "voltammetry", "impedance", "chronomethod", "auxiliary"] ∧
    (∀ t ∈ TECHNIQUES,
      (TECHNIQUE_CATEGORIES.map Prod.fst).contains t.2.category = true) ∧
    (∀ t ∈ TECHNIQUES,
      (TECHNIQUE_CATEGORIES.flatMap (fun c => c.2.techniques)).count t.1 = 1) ∧
    (∀ c ∈ TECHNIQUE_CATEGORIES, ∀ id ∈ c.2.techniques,
      (lookupTechnique id).isSome = true) := by
  decide

/-- C5: `validateProcedure` emits DR006 exactly when the first step whose
technique is lsv, cv or eis sits at an index strictly greater than 0 and no
earlier step has technique cv, purge or ocp; with no measurement step, or
with the first one at index 0, DR006 is absent. -/
theorem validateProcedure_DR006_iff (steps : List Step) (m : Metadata) :
    hasCode (validateProcedure steps m) "DR006" ↔
      ∃ n, steps.findIdx? (fun s => measurementTechs.contains s.technique) = some n ∧
        0 < n ∧
        ∀ s ∈ steps.take n, conditioningTechs.contains s.technique = false := by
  unfold validateProcedure findIndexJS
  cases hfind : steps.findIdx? (fun s => measurementTechs.contains s.technique) with
  | none =>
    simp [hfind, hasCode_append, hasCode_iteIssue]
  | some n =>
    simp [hfind, hasCode_append, hasCode_iteIssue, sliceToJS]
    intro _
    rw [if_neg (by exact Int.not_lt.mpr (Int.natCast_nonneg n))]

/-- Unfolding of `validateStep` when the technique resolves. -/
theorem validateStep_eq_of_lookup {step : Step} {tech : Technique}
    (h : lookupTechnique step.technique = some tech) :
    validateStep step =
      cvRules step ++ eisRules step ++ ocpRules step ++ cacpRules step ++
      lsvRules step ++ purgeRules step ++ genericSweep tech step := by
  unfold validateStep
  rw [h]

/-- A cv step (default parameters) with `scan_rate_mV_s = 15000`, from the
PV001 test of `validation.test.js`. -/
def cvScanRate15000 : Step :=
  { technique := "cv",
    params := [("vertex1_V", .num (mkRat 1 20)), ("vertex2_V", .num (mkRat 6 5)),
               ("scan_rate_mV_s", .num 15000), ("cycles", .num 3),
               ("start_potential_V", .null), ("ir_compensation", .bool false)] }

/-- An ocp step (default parameters) with `duration_s = 0.01`, from the
generic-bounds test of `validation.test.js`. -/
def ocpLowDuration : Step :=
  { technique := "ocp",
    params := [("duration_s", .num (mkRat 1 100)), ("stability_mV_min", .num 1),
               ("sample_rate_Hz", .num 1)] }

/-- C2: after the technique-specific rules, `validateStep` runs a generic
bounds sweep: every parameter present on the step whose catalog spec
declares a numeric min (resp. max) that the current numeric value violates
yields a PV000 error naming that parameter, for every technique; a value
that also violates a named rule yields both issues, e.g. a cv step with
`scan_rate_mV_s = 15000` has both PV001 and a PV000 naming
`scan_rate_mV_s`. -/
theorem validateStep_genericBounds :
    (∀ (step : Step) (tech : Technique),
      lookupTechnique step.technique = some tech →
      ∀ k (v : ℚ) spec, (k, JSValue.num v) ∈ step.params →
        tech.params.lookup k = some spec →
        (∀ mn, spec.min = some mn → v < mn →
          ∃ i ∈ validateStep step,
            i.code = "PV000" ∧ i.level = .error ∧ i.param = some k) ∧
        (∀ mx, spec.max = some mx → mx < v →
          ∃ i ∈ validateStep step,
            i.code = "PV000" ∧ i.level = .error ∧ i.param = some k)) ∧
    hasCode (validateStep cvScanRate15000) "PV001" ∧
    (∃ i ∈ validateStep cvScanRate15000,
      i.code = "PV000" ∧ i.param = some "scan_rate_mV_s") := by
  refine ⟨?_, by decide⟩
  intro step tech h k v spec hmem hspec
  constructor
  · intro mn hmn hlt
    refine ⟨{ level := .error, code := "PV000", param := some k }, ?_, rfl, rfl, rfl⟩
    rw [validateStep_eq_of_lookup h]
    refine List.mem_append_right _ ?_
    unfold genericSweep
    refine List.mem_flatMap.mpr ⟨(k, JSValue.num v), hmem, ?_⟩
    simp only [checkBounds, hspec]
    refine List.mem_append_left _ ?_
    simp [boundIssue, hmn, iteIssue, JSValue.jsLt, JSValue.toNum, hlt]
  · intro mx hmx hgt
    refine ⟨{ level := .error, code := "PV000", param := some k }, ?_, rfl, rfl, rfl⟩
    rw [validateStep_eq_of_lookup h]
    refine List.mem_append_right _ ?_
    unfold genericSweep
    refine List.mem_flatMap.mpr ⟨(k, JSValue.num v), hmem, ?_⟩
    simp only [checkBounds, hspec]
    refine List.mem_append_right _ ?_
    simp [boundIssue, hmx, iteIssue, JSValue.jsGt, JSValue.toNum, hgt]

theorem validateStep_genericBounds_witness :
    ∃ i ∈ validateStep ocpLowDuration,
      i.code = "PV000" ∧ i.level = .error ∧ i.param = some "duration_s" :=
  (validateStep_genericBounds.1 ocpLowDuration _ rfl "duration_s" (mkRat 1 100) _
    (by decide) rfl).1 1 rfl (by decide)

/-- C6: for every technique id in the catalog, `createDefaultStep` returns
a step whose parameter mapping has exactly the declared keys, each bound to
the declared default; for an id absent from the catalog it fails with an
Unknown-technique error instead of returning a step. -/
theorem createDefaultStep_spec (tid : String) :
    (∀ tech, lookupTechnique tid = some tech →
      ∃ s, createDefaultStep tid = .ok s ∧
        s.technique = tid ∧
        s.params.map Prod.fst = tech.params.map Prod.fst ∧
        ∀ k v, (k, v) ∈ s.params ↔ ∃ c, (k, c) ∈ tech.params ∧ c.default = v) ∧
    (lookupTechnique tid = none → ∃ msg, createDefaultStep tid = .error msg) := by
  constructor
  · intro tech h
    unfold createDefaultStep
    rw [h]
    refine ⟨_, rfl, rfl, ?_, ?_⟩
    · simp [List.map_map, Function.comp]
    · intro k v
      simp only [List.mem_map]
      constructor
      · rintro ⟨⟨k2, c⟩, hmem, he⟩
        injection he with hk hv
        subst hk hv
        exact ⟨c, hmem, rfl⟩
      · rintro ⟨c, hmem, hd⟩
        exact ⟨(k, c), hmem, by simp [hd]⟩
  · intro h
    exact ⟨"Unknown technique: " ++ tid, by unfold createDefaultStep; rw [h]⟩

theorem createDefaultStep_spec_witness :
    (∃ s, createDefaultStep "cv" = Except.ok s ∧ s.technique = "cv") ∧
    (∃ msg, createDefaultStep "fake" = Except.error msg) := by
  constructor
  · obtain ⟨s, hs, ht, -, -⟩ := (createDefaultStep_spec "cv").1 _ rfl
    exact ⟨s, hs, ht⟩
  · exact (createDefaultStep_spec "fake").2 (by decide)

/-- Codes that the cv block can emit. -/
theorem cvRules_codes {step : Step} {c : String} (h : hasCode (cvRules step) c) :
    c = "PV001" ∨ c = "PV002" ∨ c = "PV003" ∨ c = "PV004" ∨ c = "DR011" := by
  unfold cvRules at h
  split at h
  · simp only [hasCode_append, hasCode_iteIssue] at h
    rcases h with ((((⟨-, h⟩ | ⟨-, h⟩) | ⟨-, h⟩) | ⟨-, h⟩) | ⟨-, h⟩) <;> simp_all
  · exact absurd h hasCode_nil

/-- Codes that the eis block can emit. -/
theorem eisRules_codes {step : Step} {c : String} (h : hasCode (eisRules step) c) :
    c = "PV005" ∨ c = "PV006" ∨ c = "PV007" ∨ c = "PV008" ∨ c = "PV009" ∨ c = "DR005" := by
  unfold eisRules at h
  split at h
  · simp only [hasCode_append, hasCode_iteIssue] at h
    rcases h with (((((⟨-, h⟩ | ⟨-, h⟩) | ⟨-, h⟩) | ⟨-, h⟩) | ⟨-, h⟩) | ⟨-, h⟩) <;> simp_all
  · exact absurd h hasCode_nil

/-- Codes that the ocp block can emit. -/
theorem ocpRules_codes {step : Step} {c : String} (h : hasCode (ocpRules step) c) :
    c = "PV011" ∨ c = "DR004" := by
  unfold ocpRules at h
  split at h
  · simp only [hasCode_append, hasCode_iteIssue] at h
    rcases h with (⟨-, h⟩ | ⟨-, h⟩) <;> simp_all
  · exact absurd h hasCode_nil

/-- Codes that the ca/cp block can emit. -/
theorem cacpRules_codes {step : Step} {c : String} (h : hasCode (cacpRules step) c) :
    c = "PV011" ∨ c = "PV010" ∨ c = "DR001" ∨ c = "DR009" := by
  unfold cacpRules at h
  split at h
  · simp only [hasCode_append, hasCode_iteIssue] at h
    rcases h with (((⟨-, h⟩ | ⟨-, h⟩) | ⟨-, h⟩) | ⟨-, h⟩) <;> simp_all
  · exact absurd h hasCode_nil

/-- Codes that the lsv block can emit. -/
theorem lsvRules_codes {step : Step} {c : String} (h : hasCode (lsvRules step) c) :
    c = "PV001" ∨ c = "PV002" ∨ c = "PV010" := by
  unfold lsvRules at h
  split at h
  · simp only [hasCode_append, hasCode_iteIssue] at h
    rcases h with ((⟨-, h⟩ | ⟨-, h⟩) | ⟨-, h⟩) <;> simp_all
  · exact absurd h hasCode_nil

/-- Codes that the purge block can emit. -/
theorem purgeRules_codes {step : Step} {c : String} (h : hasCode (purgeRules step) c) :
    c = "PV011" ∨ c = "DR007" := by
  unfold purgeRules at h
  split at h
  · simp only [hasCode_append, hasCode_iteIssue] at h
    rcases h with (⟨-, h⟩ | ⟨-, h⟩) <;> simp_all
  · exact absurd h hasCode_nil

/-- PV004 is guarded by explicit `!== null` checks on both vertices. -/
theorem validateStep_PV004_nullGuard {step : Step} {tech : Technique}
    (h : lookupTechnique step.technique = some tech)
    (hnull : getParam step "vertex1_V" = JSValue.null ∨
             getParam step "vertex2_V" = JSValue.null) :
    ¬ hasCode (validateStep step) "PV004" := by
  intro hcode
  rw [validateStep_eq_of_lookup h] at hcode
  simp only [hasCode_append] at hcode
  rcases hcode with ((((((h1 | h2) | h3) | h4) | h5) | h6) | h7)
  · unfold cvRules at h1
    split at h1
    · simp only [hasCode_append, hasCode_iteIssue] at h1
      rcases hnull with hn | hn <;> simp [hn, JSValue.isNotNull] at h1
    · exact absurd h1 hasCode_nil
  · rcases eisRules_codes h2 with h|h|h|h|h|h <;> exact absurd h (by decide)
  · rcases ocpRules_codes h3 with h|h <;> exact absurd h (by decide)
  · rcases cacpRules_codes h4 with h|h|h|h <;> exact absurd h (by decide)
  · rcases lsvRules_codes h5 with h|h|h <;> exact absurd h (by decide)
  · rcases purgeRules_codes h6 with h|h <;> exact absurd h (by decide)
  · exact absurd (hasCode_genericSweep h7) (by decide)

/-- PV005 is guarded by explicit `!== null` checks on both frequencies. -/
theorem validateStep_PV005_nullGuard {step : Step} {tech : Technique}
    (h : lookupTechnique step.technique = some tech)
    (hnull : getParam step "f_start_Hz" = JSValue.null ∨
             getParam step "f_end_Hz" = JSValue.null) :
    ¬ hasCode (validateStep step) "PV005" := by
  intro hcode
  rw [validateStep_eq_of_lookup h] at hcode
  simp only [hasCode_append] at hcode
  rcases hcode with ((((((h1 | h2) | h3) | h4) | h5) | h6) | h7)
  · rcases cvRules_codes h1 with h|h|h|h|h <;> exact absurd h (by decide)
  · unfold eisRules at h2
    split at h2
    · simp only [hasCode_append, hasCode_iteIssue] at h2
      rcases hnull with hn | hn <;> simp [hn, JSValue.isNotNull] at h2
    · exact absurd h2 hasCode_nil
  · rcases ocpRules_codes h3 with h|h <;> exact absurd h (by decide)
  · rcases cacpRules_codes h4 with h|h|h|h <;> exact absurd h (by decide)
  · rcases lsvRules_codes h5 with h|h|h <;> exact absurd h (by decide)
  · rcases purgeRules_codes h6 with h|h <;> exact absurd h (by decide)
  · exact absurd (hasCode_genericSweep h7) (by decide)

/-- A cv step (default parameters) with `cycles = null`. -/
def cvCyclesNull : Step :=
  { technique := "cv",
    params := [("vertex1_V", .num (mkRat 1 20)), ("vertex2_V", .num (mkRat 6 5)),
               ("scan_rate_mV_s", .num 50), ("cycles", .null),
               ("start_potential_V", .null), ("ir_compensation", .bool false)] }

/-- A cv step (default parameters) with `scan_rate_mV_s = null`. -/
def cvScanRateNull : Step :=
  { technique := "cv",
    params := [("vertex1_V", .num (mkRat 1 20)), ("vertex2_V", .num (mkRat 6 5)),
               ("scan_rate_mV_s", .null), ("cycles", .num 3),
               ("start_potential_V", .null), ("ir_compensation", .bool false)] }

/-- A cv step (default parameters) with `vertex1_V = null`. -/
def cvVertex1Null : Step :=
  { technique := "cv",
    params := [("vertex1_V", .null), ("vertex2_V", .num (mkRat 6 5)),
               ("scan_rate_mV_s", .num 50), ("cycles", .num 3),
               ("start_potential_V", .null), ("ir_compensation", .bool false)] }

/-- An ocp step (default parameters) with `duration_s = null`. -/
def ocpDurationNull : Step :=
  { technique := "ocp",
    params := [("duration_s", .null), ("stability_mV_min", .num 1),
               ("sample_rate_Hz", .num 1)] }

/-- An eis step (default parameters) with `amplitude_mV = null`. -/
def eisAmplitudeNull : Step :=
  { technique := "eis",
    params := [("f_start_Hz", .num 100000), ("f_end_Hz", .num (mkRat 1 10)),
               ("amplitude_mV", .null), ("dc_potential_V", .str "OCP"),
               ("points_per_decade", .num 10)] }

/-- An eis step (default parameters) with `f_start_Hz = null`. -/
def eisFstartNull : Step :=
  { technique := "eis",
    params := [("f_start_Hz", .null), ("f_end_Hz", .num (mkRat 1 10)),
               ("amplitude_mV", .num 10), ("dc_potential_V", .str "OCP"),
               ("points_per_decade", .num 10)] }

/-- An eis step (default parameters) with `f_end_Hz = null`. -/
def eisFendNull : Step :=
  { technique := "eis",
    params := [("f_start_Hz", .num 100000), ("f_end_Hz", .null),
               ("amplitude_mV", .num 10), ("dc_potential_V", .str "OCP"),
               ("points_per_decade", .num 10)] }

/-- A ca step (default parameters) with `potential_V = null`. -/
def caPotentialNull : Step :=
  { technique := "ca",
    params := [("potential_V", .null), ("duration_s", .num 3600),
               ("sample_rate_Hz", .num 1)] }

/-- A cp step (default parameters) with `current_mA = null`. -/
def cpCurrentNull : Step :=
  { technique := "cp",
    params := [("current_mA", .null), ("duration_s", .num 3600),
               ("voltage_limits_V", .str "-0.5 to 2.0")] }

/-- An lsv step (default parameters) with both potentials null. -/
def lsvPotentialsNull : Step :=
  { technique := "lsv",
    params := [("start_V", .null), ("end_V", .null),
               ("scan_rate_mV_s", .num 5), ("ir_compensation", .bool false)] }

/-- A purge step (default parameters) with `duration_min = null`. -/
def purgeDurationNull : Step :=
  { technique := "purge",
    params := [("gas", .str "N2"), ("duration_min", .null),
               ("flow_rate_mL_min", .num 50)] }

/-- C1 counterexample: a cv step with `cycles = null` — which the claim
says receives no PV003 — does receive PV003: JS compares `null < 1` as
`0 < 1`, so the rule fires on the null parameter alone. -/
theorem nullParams_counterexample :
    cvCyclesNull.technique = "cv" ∧
    getParam cvCyclesNull "cycles" = JSValue.null ∧
    hasCode (validateStep cvCyclesNull) "PV003" := by decide

/-- C1 amended: only the two-parameter rules PV004 and PV005 carry explicit
null guards and never fire when a referenced parameter is null.  Every
other technique-specific rule compares through JS numeric coercion, under
which null is 0: the lower-bound rules PV003, PV007, PV008 and PV011 fire
on a null referenced parameter, while the upper-bound and
positive-threshold rules (PV001, PV002, PV006, PV009, PV010, DR001, DR004,
DR005, DR007, DR009, DR011) do not. -/
theorem nullParams_amended :
    (∀ (step : Step) (tech : Technique),
      lookupTechnique step.technique = some tech →
      ((getParam step "vertex1_V" = JSValue.null ∨
        getParam step "vertex2_V" = JSValue.null) →
          ¬ hasCode (validateStep step) "PV004") ∧
      ((getParam step "f_start_Hz" = JSValue.null ∨
        getParam step "f_end_Hz" = JSValue.null) →
          ¬ hasCode (validateStep step) "PV005")) ∧
    hasCode (validateStep cvCyclesNull) "PV003" ∧
    hasCode (validateStep ocpDurationNull) "PV011" ∧
    hasCode (validateStep eisAmplitudeNull) "PV008" ∧
    hasCode (validateStep eisFendNull) "PV007" ∧
    hasCode (validateStep purgeDurationNull) "PV011" ∧
    ¬ hasCode (validateStep cvScanRateNull) "PV001" ∧
    ¬ hasCode (validateStep cvScanRateNull) "PV002" ∧
    ¬ hasCode (validateStep eisFstartNull) "PV006" ∧
    ¬ hasCode (validateStep eisAmplitudeNull) "PV009" ∧
    ¬ hasCode (validateStep eisAmplitudeNull) "DR005" ∧
    ¬ hasCode (validateStep caPotentialNull) "PV010" ∧
    ¬ hasCode (validateStep caPotentialNull) "DR001" ∧
    ¬ hasCode (validateStep cpCurrentNull) "DR009" ∧
    ¬ hasCode (validateStep lsvPotentialsNull) "PV010" ∧
    ¬ hasCode (validateStep ocpDurationNull) "DR004" ∧
    ¬ hasCode (validateStep cvCyclesNull) "DR011" ∧
    ¬ hasCode (validateStep purgeDurationNull) "DR007" := by
  refine ⟨fun step tech h =>
    ⟨validateStep_PV004_nullGuard h, validateStep_PV005_nullGuard h⟩, ?_⟩
  decide

theorem nullParams_amended_witness :
    ¬ hasCode (validateStep cvVertex1Null) "PV004" ∧
    ¬ hasCode (validateStep eisFstartNull) "PV005" :=
  ⟨(nullParams_amended.1 cvVertex1Null _ rfl).1 (Or.inl rfl),
   (nullParams_amended.1 eisFstartNull _ rfl).2 (Or.inl rfl)⟩

/-- A cv step (default parameters) with `scan_rate_mV_s = 100`, from the IR
unit-conversion test of `generators.test.js`. -/
def cvScan100 : Step :=
  { technique := "cv",
    params := [("vertex1_V", .num (mkRat 1 20)), ("vertex2_V", .num (mkRat 6 5)),
               ("scan_rate_mV_s", .num 100), ("cycles", .num 3),
               ("start_potential_V", .null), ("ir_compensation", .bool false)] }

/-- A purge step with default parameters (`duration_min = 20`). -/
def purge20 : Step :=
  { technique := "purge",
    params := [("gas", .str "N2"), ("duration_min", .num 20),
               ("flow_rate_mL_min", .num 50)] }

/-- C8: the IR generator converts each parameter to SI base units and
removes the original non-SI key — `*_mV_s` divides by 1000 and re-keys
`*_V_s`, `*_mV` divides by 1000 and re-keys `*_V`, `*_min` multiplies by 60
and re-keys `*_s`, `*_mA` divides by 1000 and re-keys `*_A`, everything
else passes through; concretely, `scan_rate_mV_s = 100` becomes
`scan_rate_V_s = 0.1` with `scan_rate_mV_s` absent, and
`duration_min = 20` becomes `duration_s = 1200` with `duration_min`
absent. -/
theorem irUnitConversion :
    (∀ (k : String) (q : ℚ), strEndsIn k "_mV_s" = true →
      convertParamToSI (k, .num q) = (dropSuffix k 5 ++ "_V_s", .num (q / 1000))) ∧
    (∀ (k : String) (q : ℚ), strEndsIn k "_mV_s" = false → strEndsIn k "_mV" = true →
      convertParamToSI (k, .num q) = (dropSuffix k 3 ++ "_V", .num (q / 1000))) ∧
    (∀ (k : String) (q : ℚ), strEndsIn k "_mV_s" = false → strEndsIn k "_mV" = false →
      strEndsIn k "_min" = true →
      convertParamToSI (k, .num q) = (dropSuffix k 4 ++ "_s", .num (q * 60))) ∧
    (∀ (k : String) (q : ℚ), strEndsIn k "_mV_s" = false → strEndsIn k "_mV" = false →
      strEndsIn k "_min" = false → strEndsIn k "_mA" = true →
      convertParamToSI (k, .num q) = (dropSuffix k 3 ++ "_A", .num (q / 1000))) ∧
    (∀ (k : String) (q : ℚ), strEndsIn k "_mV_s" = false → strEndsIn k "_mV" = false →
      strEndsIn k "_min" = false → strEndsIn k "_mA" = false →
      convertParamToSI (k, .num q) = (k, .num q)) ∧
    stepToIRParams cvScan100 =
      [("vertex1_V", .num (mkRat 1 20)), ("vertex2_V", .num (mkRat 6 5)),
       ("scan_rate_V_s", .num (mkRat 1 10)), ("cycles", .num 3),
       ("start_potential_V", .null), ("ir_compensation", .bool false)] ∧
    "scan_rate_mV_s" ∉ (stepToIRParams cvScan100).map Prod.fst ∧
    ("duration_s", JSValue.num 1200) ∈ stepToIRParams purge20 ∧
    "duration_min" ∉ (stepToIRParams purge20).map Prod.fst := by
  refine ⟨?_, ?_, ?_, ?_, ?_, by decide⟩
  · intro k q h1
    simp [convertParamToSI, h1, divQ1000_eq]
  · intro k q h1 h2
    simp [convertParamToSI, h1, h2, divQ1000_eq]
  · intro k q h1 h2 h3
    simp [convertParamToSI, h1, h2, h3, mulQ60_eq]
  · intro k q h1 h2 h3 h4
    simp [convertParamToSI, h1, h2, h3, h4, divQ1000_eq]
  · intro k q h1 h2 h3 h4
    simp [convertParamToSI, h1, h2, h3, h4]

theorem irUnitConversion_witness :
    convertParamToSI ("scan_rate_mV_s", .num 100) =
      (dropSuffix "scan_rate_mV_s" 5 ++ "_V_s", .num (100 / 1000)) ∧
    convertParamToSI ("duration_min", .num 20) =
      (dropSuffix "duration_min" 4 ++ "_s", .num (20 * 60)) :=
  ⟨irUnitConversion.1 "scan_rate_mV_s" 100 (by decide),
   irUnitConversion.2.2.1 "duration_min" 20 (by decide) (by decide) (by decide)⟩

/-- C9: each quote-escaping function maps null/undefined to the empty
string and never throws, distributes over concatenation (so escaping is
character-wise: a backslash introduced by escaping a quote is never
re-escaped, i.e. backslashes are handled first), sends backslash, the
format's quote character(s), newline, tab and carriage return to their
two-character escape sequences, and leaves every other character
unchanged. -/
theorem escapeFunctions :
    (∀ s t : String,
      escapeYaml (some (s ++ t)) = escapeYaml (some s) ++ escapeYaml (some t)) ∧
    (∀ s t : String,
      escapePython (some (s ++ t)) = escapePython (some s) ++ escapePython (some t)) ∧
    (∀ c : Char, escapeYaml (some (String.singleton c)) = escYamlChar c) ∧
    (∀ c : Char, escapePython (some (String.singleton c)) = escPyChar c) ∧
    (∀ c : Char, c ∉ ['\\', '"', '\n', '\t', '\r'] →
      escYamlChar c = String.singleton c) ∧
    (∀ c : Char, c ∉ ['\\', '"', '\x27', '\n', '\t', '\r'] →
      escPyChar c = String.singleton c) ∧
    (escapeYaml none = "" ∧ escapePython none = "" ∧
     escYamlChar '\\' = "\\\\" ∧ escYamlChar '"' = "\\\"" ∧
     escYamlChar '\n' = "\\n" ∧ escYamlChar '\t' = "\\t" ∧
     escYamlChar '\r' = "\\r" ∧
     escPyChar '\\' = "\\\\" ∧ escPyChar '"' = "\\\"" ∧
     escPyChar '\x27' = "\\\x27" ∧ escPyChar '\n' = "\\n" ∧
     escPyChar '\t' = "\\t" ∧ escPyChar '\r' = "\\r" ∧
     escapeYaml (some "hello \"world\"") = "hello \\\"world\\\"") := by
  refine ⟨?_, ?_, ?_, ?_, ?_, ?_, by decide⟩
  · intro s t
    show String.mk ((s ++ t).data.flatMap _) = _
    rw [String.data_append, List.flatMap_append]
    rfl
  · intro s t
    show String.mk ((s ++ t).data.flatMap _) = _
    rw [String.data_append, List.flatMap_append]
    rfl
  · intro c
    show String.mk ([c].flatMap _) = _
    simp
  · intro c
    show String.mk ([c].flatMap _) = _
    simp
  · intro c hc
    simp only [List.mem_cons, List.not_mem_nil, or_false, not_or] at hc
    obtain ⟨h1, h2, h3, h4, h5⟩ := hc
    simp [escYamlChar, h1, h2, h3, h4, h5]
  · intro c hc
    simp only [List.mem_cons, List.not_mem_nil, or_false, not_or] at hc
    obtain ⟨h1, h2, h3, h4, h5, h6⟩ := hc
    simp [escPyChar, h1, h2, h3, h4, h5, h6]

theorem escapeFunctions_witness :
    escYamlChar 'x' = String.singleton 'x' ∧
    escPyChar 'y' = String.singleton 'y' :=
  ⟨escapeFunctions.2.2.2.2.1 'x' (by decide),
   escapeFunctions.2.2.2.2.2.1 'y' (by decide)⟩
